import Mathlib

/-!
Verification of the WhatsApp coding-assistant service (Flask + Gemini + MCP).

Shallow embedding of:
* `src/services/ai_service.py` — `_clean_schema`, `_filter_unset_parameters`,
  `_execute_function_call`, `_generate_response_async`;
* `src/utils/code_formatter.py` — `format_code_for_whatsapp`, `truncate_message`;
* `src/app.py` — the chat-history bookkeeping shared by `webhook` and `api_chat`.

Python dicts are modelled as association lists (key order = insertion order),
JSON values as the inductive type `Json`, raised exceptions as `Except`.
Values produced by fuelled recursions are always invoked with enough fuel for
the whole input, so they compute by kernel reduction.
-/

/-- JSON values as passed around by the service (tool schemas, tool-call
arguments, tool-call results).  Numbers are modelled as integers: no schema or
argument in this code path carries a fractional constant. -/
inductive Json where
  | null : Json
  | bool (b : Bool) : Json
  | num (n : Int) : Json
  | str (s : String) : Json
  | arr (l : List Json) : Json
  | obj (l : List (String × Json)) : Json

namespace Json

/-- Python truthiness (`bool(x)`) for the JSON values above:
`None`, `False`, `0`, the empty string, `[]`, and an empty dict are falsy,
everything else truthy. -/
def truthy : Json → Bool
  | null => false
  | bool b => b
  | num n => n != 0
  | str s => s != ""
  | arr l => !l.isEmpty
  | obj l => !l.isEmpty

/-- Whether the value is a Python `dict` (`isinstance(schema, dict)`). -/
def isDict : Json → Bool
  | obj _ => true
  | _ => false

/-- Python `value is None`. -/
def isNull : Json → Bool
  | null => true
  | _ => false

/-- Python `value == ""` — only the empty string compares equal to `""`. -/
def isEmptyString : Json → Bool
  | str s => s == ""
  | _ => false

/-- Python `d.get(key, default)` on a dict modelled as an association list:
the first binding of `key` wins. -/
def pyGet (fields : List (String × Json)) (key : String) (default : Json) : Json :=
  match fields.find? (fun p => p.1 == key) with
  | some p => p.2
  | none => default

/-- Python `element == key` where `key` is a string: only an equal string
compares equal; dicts, lists, numbers, booleans and `None` never do. -/
def eqStr : Json → String → Bool
  | str s, key => s == key
  | _, _ => false

/-- Python `key in container` for a string key.  On a list it is element
membership (`==` against each element), on a string it is substring search,
on a dict it is key membership; on `None`, booleans and numbers Python raises
`TypeError`, modelled as `none`. -/
def pyContains (key : String) : Json → Option Bool
  | arr l => some (l.any (fun j => j.eqStr key))
  | str s => some (decide (key.data <:+: s.data))
  | obj l => some (l.any (fun p => p.1 == key))
  | _ => none

end Json

/-! ### Schema Sanitizer — `_clean_schema` (src/services/ai_service.py:105-117)

The Python function recurses into dicts and lists, dropping every dict entry
whose key is `additionalProperties` or `$schema`, and returns every other
value unchanged. -/

mutual

/-- Embedding of `GeminiService._clean_schema`
(src/services/ai_service.py:105-117). -/
def clean_schema : Json → Json
  | Json.obj fields => Json.obj (clean_schema_fields fields)
  | Json.arr items => Json.arr (clean_schema_items items)
  | s => s

/-- The dict comprehension inside `_clean_schema`: keep the entries whose key
is not `additionalProperties` or `$schema`, cleaning each kept value. -/
def clean_schema_fields : List (String × Json) → List (String × Json)
  | [] => []
  | (k, v) :: rest =>
    if k == "additionalProperties" || k == "$schema" then clean_schema_fields rest
    else (k, clean_schema v) :: clean_schema_fields rest

/-- The list comprehension inside `_clean_schema`: clean every item. -/
def clean_schema_items : List Json → List Json
  | [] => []
  | j :: rest => clean_schema j :: clean_schema_items rest

end

/-! Deep occurrence of an unsupported key, used to state the sanitizer's
postcondition. -/

mutual

/-- Whether some dict at any nesting depth of the value binds the key `key`. -/
def has_key_deep (key : String) : Json → Bool
  | Json.obj fields => has_key_deep_fields key fields
  | Json.arr items => has_key_deep_items key items
  | _ => false

/-- Deep key occurrence inside a dict's entries (key itself or inside a value). -/
def has_key_deep_fields (key : String) : List (String × Json) → Bool
  | [] => false
  | (k, v) :: rest => k == key || has_key_deep key v || has_key_deep_fields key rest

/-- Deep key occurrence inside a list's items. -/
def has_key_deep_items (key : String) : List Json → Bool
  | [] => false
  | j :: rest => has_key_deep key j || has_key_deep_items key rest

end

/-! ### Argument Filter — `_filter_unset_parameters` (src/services/ai_service.py:119-142) -/

/-- The guard `not schema or not isinstance(schema, dict)` is false exactly on
non-empty dicts, so filtering only happens for those. -/
def is_active_schema (schema : Json) : Bool :=
  schema.truthy && schema.isDict

/-- The `for key, value in arguments.items()` loop of
`_filter_unset_parameters`: keep required keys unconditionally, keep declared
optional keys whose value is neither `None` nor the empty string.  A
`TypeError` raised by `key in required_params` / `key in properties`
(possible when the schema maps them to `None`, a boolean or a number) is
modelled as `Except.error ()`. -/
def filter_unset_loop (required_params properties : Json) :
    List (String × Json) → Except Unit (List (String × Json))
  | [] => Except.ok []
  | (key, value) :: rest =>
    match Json.pyContains key required_params with
    | none => Except.error ()
    | some true =>
      (filter_unset_loop required_params properties rest).map (fun l => (key, value) :: l)
    | some false =>
      match Json.pyContains key properties with
      | none => Except.error ()
      | some inProps =>
        if inProps && !value.isNull && !value.isEmptyString then
          (filter_unset_loop required_params properties rest).map (fun l => (key, value) :: l)
        else filter_unset_loop required_params properties rest

/-- Embedding of `GeminiService._filter_unset_parameters`
(src/services/ai_service.py:119-142). -/
def filter_unset_parameters (arguments : List (String × Json)) (schema : Json) :
    Except Unit (List (String × Json)) :=
  if !is_active_schema schema then Except.ok arguments
  else
    match schema with
    | Json.obj fields =>
      filter_unset_loop (Json.pyGet fields "required" (Json.arr []))
        (Json.pyGet fields "properties" (Json.obj [])) arguments
    | _ => Except.ok arguments

/-- Modelled from the spec's words (§4.2 / claim C1), for comparison with
`filter_unset_parameters`: keep every argument key listed in the schema's
required list, plus every key present in the schema's properties whose value
is neither `None` nor the empty string; if the schema is absent or not a
mapping, return the arguments unchanged. -/
def spec_filter_unset (arguments : List (String × Json)) (schema : Json) :
    List (String × Json) :=
  match schema with
  | Json.obj fields =>
    let required := Json.pyGet fields "required" (Json.arr [])
    let properties := Json.pyGet fields "properties" (Json.obj [])
    arguments.filter (fun kv =>
      (match required with
       | Json.arr l => l.any (fun j => j.eqStr kv.1)
       | _ => false)
      || ((match properties with
           | Json.obj l => l.any (fun p => p.1 == kv.1)
           | _ => false)
          && !kv.2.isNull && !kv.2.isEmptyString))
  | _ => arguments

/-! ### Python string helpers shared by the Post-Processor embedding -/

/-- Python `\w` (regex word character), restricted to ASCII as it appears in
declared code-fence languages: letters, digits, underscore. -/
def is_word_char (c : Char) : Bool :=
  c.isAlphanum || c == '_'

/-- Python `str.strip()` whitespace set. -/
def is_py_space (c : Char) : Bool :=
  c == ' ' || c == '\t' || c == '\n' || c == '\r' || c == '\x0b' || c == '\x0c'

/-- Python `str.strip()`: drop leading and trailing whitespace. -/
def py_strip (s : String) : String :=
  String.mk (((s.data.dropWhile is_py_space).reverse.dropWhile is_py_space).reverse)

/-- Python `s.replace(pat, rep)` for a non-empty pattern, on character lists:
replace every non-overlapping occurrence, scanning left to right.  The fuel is
an upper bound on the number of characters still to be scanned; every call in
this development passes the list's length, which suffices because each step
consumes at least one character of a non-empty pattern. -/
def replace_all_fuel (rep : List Char) : Nat → List Char → List Char → List Char
  | 0, s, _ => s
  | _ + 1, [], _ => []
  | fuel + 1, c :: rest, pat =>
    if !pat.isEmpty && pat.isPrefixOf (c :: rest) then
      rep ++ replace_all_fuel rep fuel ((c :: rest).drop pat.length) pat
    else
      c :: replace_all_fuel rep fuel rest pat

/-- Python `s.replace(pat, rep)` (non-empty `pat`). -/
def replace_all (s pat rep : List Char) : List Char :=
  replace_all_fuel rep s.length s pat

/-- Split off the code body at the earliest occurrence of a closing fence
`"\n```"`: returns the characters before it and the characters after it.
This is how the lazy group `([\s\S]*?)` followed by `\n``` ` matches. -/
def split_at_close_fence : List Char → Option (List Char × List Char)
  | [] => none
  | c :: rest =>
    if ("\n```".data).isPrefixOf (c :: rest) then some ([], (c :: rest).drop 4)
    else
      match split_at_close_fence rest with
      | some (pre, post) => some (c :: pre, post)
      | none => none

/-- Matches of `re.findall(r"```(\w+)\n([\s\S]*?)\n```", text)`, in order,
as (language, code) pairs: at each position try to match three backticks, a
non-empty maximal run of word characters, a newline, then the lazily-shortest
body up to a closing `"\n```"`; on success continue after the match, otherwise
advance one character.  Fuel bounds the scan length (the input length always
suffices). -/
def find_lang_blocks_fuel : Nat → List Char → List (List Char × List Char)
  | 0, _ => []
  | _ + 1, [] => []
  | fuel + 1, c :: rest =>
    let s := c :: rest
    if ("```".data).isPrefixOf s then
      let afterTicks := s.drop 3
      let lang := afterTicks.takeWhile is_word_char
      let afterLang := afterTicks.dropWhile is_word_char
      if !lang.isEmpty && (match afterLang with | '\n' :: _ => true | _ => false) then
        match split_at_close_fence (afterLang.drop 1) with
        | some (code, post) => (lang, code) :: find_lang_blocks_fuel fuel post
        | none => find_lang_blocks_fuel fuel rest
      else find_lang_blocks_fuel fuel rest
    else find_lang_blocks_fuel fuel rest

/-- Matches of `re.findall(r"```\n([\s\S]*?)\n```", text)`, in order. -/
def find_generic_blocks_fuel : Nat → List Char → List (List Char)
  | 0, _ => []
  | _ + 1, [] => []
  | fuel + 1, c :: rest =>
    let s := c :: rest
    if ("```\n".data).isPrefixOf s then
      match split_at_close_fence (s.drop 4) with
      | some (code, post) => code :: find_generic_blocks_fuel fuel post
      | none => find_generic_blocks_fuel fuel rest
    else find_generic_blocks_fuel fuel rest

/-- Python `lang.upper()` for an ASCII language tag. -/
def lang_upper (lang : List Char) : List Char :=
  lang.map Char.toUpper

/-! ### Response Post-Processor — `format_code_for_whatsapp`
(src/utils/code_formatter.py:4-32)

First pass: each `(lang, code)` match of the language-tagged fence pattern is
replaced (every occurrence, via `str.replace`) by
`*LANG CODE:*\n```\ncode\n``` `.  Second pass, run on the already rewritten
text: each `code` match of the untagged fence pattern is replaced by
`*CODE:*\n```\ncode\n``` `.  The surrounding `try/except` only guards against
runtime errors and returns the input unchanged; nothing in the model raises,
so it is not represented. -/
def format_code_for_whatsapp (text : String) : String :=
  let t0 := text.data
  let matches1 := find_lang_blocks_fuel t0.length t0
  let t1 := matches1.foldl (fun acc m =>
    replace_all acc ("```".data ++ m.1 ++ '\n' :: m.2 ++ "\n```".data)
      ('*' :: lang_upper m.1 ++ " CODE:*\n```\n".data ++ m.2 ++ "\n```".data)) t0
  let matches2 := find_generic_blocks_fuel t1.length t1
  let t2 := matches2.foldl (fun acc code =>
    replace_all acc ("```\n".data ++ code ++ "\n```".data)
      ("*CODE:*\n```\n".data ++ code ++ "\n```".data)) t1
  String.mk t2

/-! ### Response Post-Processor — `truncate_message`
(src/utils/code_formatter.py:34-50) -/

/-- Whether the text starts with the two-newline paragraph break searched for
by `truncated.rfind('\n\n')`. -/
def is_para_start : List Char → Bool
  | '\n' :: '\n' :: _ => true
  | _ => false

/-- Python `truncated.rfind('\n\n')`: the greatest index at which two
consecutive newlines start, if any. -/
def rfind_para : List Char → Option Nat
  | [] => none
  | c :: rest =>
    match rfind_para rest with
    | some i => some (i + 1)
    | none => if is_para_start (c :: rest) then some 0 else none

/-- Python `text[:n]` where `n` may be negative: a negative bound counts from
the end (clamped at zero). -/
def py_slice_to (l : List Char) (n : Int) : List Char :=
  if 0 ≤ n then l.take n.toNat else l.take (l.length - (-n).toNat)

/-- Embedding of `truncate_message` (src/utils/code_formatter.py:34-50).
Texts within the budget pass through; otherwise the text is cut to
`text[:max_length-3]`, re-cut at the last paragraph break (`"\n\n"`) if that
break lies strictly beyond `max_length * 0.8`, and `"..."` is appended.  The
threshold comparison `last_newline > max_length * 0.8` is modelled exactly
over the rationals as `5 * last_newline > 4 * max_length`, which agrees with
the Python float comparison for every realistic budget. -/
def truncate_message (text : String) (max_length : Nat := 1500) : String :=
  if text.length ≤ max_length then text
  else
    let truncated := py_slice_to text.data ((max_length : Int) - 3)
    let truncated2 :=
      match rfind_para truncated with
      | some i => if 5 * i > 4 * max_length then truncated.take i else truncated
      | none => truncated
    String.mk truncated2 ++ "..."

/-! ### JSON round-trip used by `_execute_function_call`

Model of the standard library's `json.loads` / `json.dumps(..., indent=2)`
restricted to the values of `Json` (integers, no floats; the common string
escapes).  The loop-level claims do not depend on the grammar's edge cases,
only on the parse-or-fall-back structure of the caller. -/

/-- JSON insignificant whitespace. -/
def skip_json_ws (l : List Char) : List Char :=
  l.dropWhile (fun c => c == ' ' || c == '\t' || c == '\n' || c == '\r')

/-- Body of a JSON string literal after the opening quote: the decoded
characters and the rest of the input after the closing quote. -/
def parse_string_body : List Char → Option (List Char × List Char)
  | [] => none
  | '"' :: rest => some ([], rest)
  | '\\' :: e :: rest =>
    let decoded : Option Char :=
      if e == '"' then some '"'
      else if e == '\\' then some '\\'
      else if e == '/' then some '/'
      else if e == 'n' then some '\n'
      else if e == 't' then some '\t'
      else if e == 'r' then some '\r'
      else if e == 'b' then some '\x08'
      else if e == 'f' then some '\x0c'
      else none
    match decoded with
    | some c =>
      match parse_string_body rest with
      | some (body, after) => some (c :: body, after)
      | none => none
    | none => none
  | c :: rest =>
    match parse_string_body rest with
    | some (body, after) => some (c :: body, after)
    | none => none

/-- A JSON integer literal: optional minus sign and a non-empty digit run. -/
def parse_int_lit (l : List Char) : Option (Int × List Char) :=
  let (neg, l') := match l with
    | '-' :: rest => (true, rest)
    | _ => (false, l)
  let digits := l'.takeWhile Char.isDigit
  let rest := l'.dropWhile Char.isDigit
  if digits.isEmpty then none
  else
    let n : Int := digits.foldl (fun acc c => 10 * acc + (c.toNat - '0'.toNat : Int)) 0
    some (if neg then -n else n, rest)

mutual

/-- Recursive-descent JSON value parser.  Fuel bounds the nesting depth;
`json_loads` passes the input length, which always suffices since every
nesting level consumes at least one character. -/
def parse_json_value : Nat → List Char → Option (Json × List Char)
  | 0, _ => none
  | fuel + 1, input =>
    match skip_json_ws input with
    | [] => none
    | c :: rest =>
      if c == 'n' then
        if ("ull".data).isPrefixOf rest then some (Json.null, rest.drop 3) else none
      else if c == 't' then
        if ("rue".data).isPrefixOf rest then some (Json.bool true, rest.drop 3) else none
      else if c == 'f' then
        if ("alse".data).isPrefixOf rest then some (Json.bool false, rest.drop 4) else none
      else if c == '"' then
        match parse_string_body rest with
        | some (body, after) => some (Json.str (String.mk body), after)
        | none => none
      else if c == '-' || c.isDigit then
        match parse_int_lit (c :: rest) with
        | some (n, after) => some (Json.num n, after)
        | none => none
      else if c == '[' then
        match skip_json_ws rest with
        | ']' :: after => some (Json.arr [], after)
        | _ =>
          match parse_json_items fuel rest with
          | some (items, after) => some (Json.arr items, after)
          | none => none
      else if c == Char.ofNat 123 then
        match skip_json_ws rest with
        | c' :: after =>
          if c' == Char.ofNat 125 then some (Json.obj [], after)
          else
            match parse_json_members fuel rest with
            | some (fields, after') => some (Json.obj fields, after')
            | none => none
        | [] => none
      else none

/-- One-or-more comma-separated array items followed by a closing bracket. -/
def parse_json_items : Nat → List Char → Option (List Json × List Char)
  | 0, _ => none
  | fuel + 1, input =>
    match parse_json_value fuel input with
    | none => none
    | some (v, rest) =>
      match skip_json_ws rest with
      | ',' :: more =>
        match parse_json_items fuel more with
        | some (items, after) => some (v :: items, after)
        | none => none
      | ']' :: after => some ([v], after)
      | _ => none

/-- One-or-more comma-separated `"key": value` members followed by a closing
brace. -/
def parse_json_members : Nat → List Char → Option (List (String × Json) × List Char)
  | 0, _ => none
  | fuel + 1, input =>
    match skip_json_ws input with
    | '"' :: rest =>
      match parse_string_body rest with
      | none => none
      | some (keyBody, afterKey) =>
        match skip_json_ws afterKey with
        | ':' :: afterColon =>
          match parse_json_value fuel afterColon with
          | none => none
          | some (v, rest') =>
            match skip_json_ws rest' with
            | ',' :: more =>
              match parse_json_members fuel more with
              | some (fields, after) => some ((String.mk keyBody, v) :: fields, after)
              | none => none
            | c :: after =>
              if c == Char.ofNat 125 then some ([(String.mk keyBody, v)], after)
              else none
            | [] => none
        | _ => none
    | _ => none

end

/-- Model of `json.loads(text)`: parse one value and require only whitespace
to follow; `none` models a raised `json.JSONDecodeError`. -/
def json_loads (text : String) : Option Json :=
  match parse_json_value (text.length + 1) text.data with
  | some (v, rest) => if (skip_json_ws rest).isEmpty then some v else none
  | none => none

/-- JSON string literal encoding used by `json.dumps`: quote and escape. -/
def dump_json_string (s : String) : String :=
  "\"" ++ String.mk (s.data.flatMap (fun c =>
    if c == '"' then "\\\"".data
    else if c == '\\' then "\\\\".data
    else if c == '\n' then "\\n".data
    else if c == '\t' then "\\t".data
    else if c == '\r' then "\\r".data
    else [c])) ++ "\""

mutual

/-- Model of `json.dumps(value, indent=2)` at nesting level `level`:
dicts and lists put every element on its own line, indented two spaces per
level, with `": "` between a key and its value. -/
def json_dumps_at : Nat → Json → String
  | _, Json.null => "null"
  | _, Json.bool b => if b then "true" else "false"
  | _, Json.num n => toString n
  | _, Json.str s => dump_json_string s
  | level, Json.arr items =>
    match items with
    | [] => "[]"
    | _ =>
      "[\n" ++ json_dumps_items (level + 1) items
        ++ "\n" ++ String.mk (List.replicate (2 * level) ' ') ++ "]"
  | level, Json.obj fields =>
    match fields with
    | [] => "\x7b\x7d"
    | _ =>
      "\x7b\n" ++ json_dumps_members (level + 1) fields
        ++ "\n" ++ String.mk (List.replicate (2 * level) ' ') ++ "\x7d"

/-- Comma-and-newline separated array items, each indented. -/
def json_dumps_items : Nat → List Json → String
  | _, [] => ""
  | level, [j] => String.mk (List.replicate (2 * level) ' ') ++ json_dumps_at level j
  | level, j :: rest =>
    String.mk (List.replicate (2 * level) ' ') ++ json_dumps_at level j ++ ",\n"
      ++ json_dumps_items level rest

/-- Comma-and-newline separated dict members, each indented. -/
def json_dumps_members : Nat → List (String × Json) → String
  | _, [] => ""
  | level, [(k, v)] =>
    String.mk (List.replicate (2 * level) ' ') ++ dump_json_string k ++ ": "
      ++ json_dumps_at level v
  | level, (k, v) :: rest =>
    String.mk (List.replicate (2 * level) ' ') ++ dump_json_string k ++ ": "
      ++ json_dumps_at level v ++ ",\n" ++ json_dumps_members level rest

end

/-- Model of `json.dumps(result_data, indent=2)`. -/
def json_dumps (j : Json) : String :=
  json_dumps_at 0 j

/-! ### Provider Connector — `_execute_function_call`
(src/services/ai_service.py:167-212) -/

/-- A function call emitted by the model: name and raw arguments mapping. -/
structure FunctionCall where
  name : String
  args : List (String × Json)

/-- One entry of the `tool_schemas` list built by `_get_mcp_tools`
(src/services/ai_service.py:152-160): the cleaned declaration plus the
original schema kept for parameter filtering. -/
structure ToolInfo where
  name : String
  description : String
  parameters : Json
  original_schema : Json

/-- The behaviour of `mcp_session.call_tool(name, arguments)`:
`Except.error msg` models a raised exception with text `str(e)`, and
`Except.ok texts` models a result whose `content` items carry the given
texts. -/
def McpSession : Type :=
  String → List (String × Json) → Except String (List String)

/-- Stand-in for `str(e)` of the `TypeError` that `key in required_params`
raises when the schema's required/properties entries are not containers; the
exact wording is produced by the Python runtime and does not matter to any
claim. -/
def type_error_text : String :=
  "argument of type 'int' is not iterable"

/-- The argument-filtering prelude of `_execute_function_call`
(src/services/ai_service.py:177-187): look the tool's original schema up in
`tool_schemas` (first match by name); when one is found and is truthy, filter
the arguments with `_filter_unset_parameters`, otherwise keep them as-is.
An empty `tool_schemas` list also models Python's falsy `None` default. -/
def filtered_call_args (function_call : FunctionCall) (tool_schemas : List ToolInfo) :
    Except Unit (List (String × Json)) :=
  let tool_schema : Option Json :=
    if tool_schemas.isEmpty then none
    else (tool_schemas.find? (fun s => s.name == function_call.name)).map
      (fun s => s.original_schema)
  match tool_schema with
  | some ts =>
    if ts.truthy then filter_unset_parameters function_call.args ts
    else Except.ok function_call.args
  | none => Except.ok function_call.args

/-- Embedding of `GeminiService._execute_function_call`
(src/services/ai_service.py:167-212).  The whole body runs inside
`try/except Exception`, so a raised `TypeError` from filtering or any
exception from the session call becomes the text
`"Error executing function: " ++ str(e)`; a non-empty result whose first
content text parses as JSON is re-serialized with `indent=2`; a non-parseable
one is returned raw; an empty result yields a fixed notice. -/
def execute_function_call (session : McpSession) (function_call : FunctionCall)
    (tool_schemas : List ToolInfo) : String :=
  match filtered_call_args function_call tool_schemas with
  | Except.error _ => "Error executing function: " ++ type_error_text
  | Except.ok filtered_args =>
    match session function_call.name filtered_args with
    | Except.error e => "Error executing function: " ++ e
    | Except.ok contents =>
      match contents with
      | [] => "Function executed successfully but returned no content."
      | t :: _ =>
        match json_loads t with
        | some j => json_dumps j
        | none => t

/-! ### Loop Controller — `_generate_response_async`
(src/services/ai_service.py:233-441)

The model samples Gemini at most twice per turn: one initial
`generate_content` call and, when the reply carries function calls, one
follow-up call — or, when the MCP block raises, one fallback call.  The
environment below fixes everything external to the code: whether a GitHub
token is configured, whether the MCP connection comes up, what each of the
(at most two) sampling calls returns, and what each executed function call
produces (`_execute_function_call` never raises, so the executor is a total
function into `String`). -/

/-- Outcome of one `client.models.generate_content` invocation:
a raised exception, or a parsed reply with its function-call parts and its
optional text (`none` models `response.text` being `None`). -/
inductive ModelReply where
  | failure (msg : String)
  | reply (function_calls : List FunctionCall) (text : Option String)

/-- Everything external to one `_generate_response_async` turn. -/
structure TurnEnv where
  has_token : Bool
  connect_ok : Bool
  first_reply : ModelReply
  follow_up_reply : ModelReply
  fallback_reply : ModelReply
  exec_result : FunctionCall → String

/-- The apology used when a reply has neither function calls nor text
(src/services/ai_service.py:379 and 426). -/
def no_response_apology : String :=
  "I apologize, but I couldn't generate a response. Please try rephrasing your question."

/-- Python `if response.text:` — present and non-empty. -/
def text_truthy : Option String → Bool
  | some t => t != ""
  | none => false

/-- The tail of the successful MCP branch (src/services/ai_service.py:381-389):
WhatsApp code formatting, then truncation to 1500 characters. -/
def post_process (response_text : String) : String :=
  truncate_message (format_code_for_whatsapp response_text) 1500

/-- The fallback path of `_generate_response_async`
(src/services/ai_service.py:397-441), reached when no GitHub token is
available or the MCP block raised: one more sampling call; a raised exception
propagates to the outermost handler, which returns an error text (with no
post-processing); a falsy text returns the apology directly (also with no
post-processing); otherwise the stripped text is formatted and truncated.
The first component is the returned text, the second the number of sampling
calls issued by this path. -/
def fallback_generate (env : TurnEnv) : String × Nat :=
  match env.fallback_reply with
  | ModelReply.failure e =>
    ("I encountered an error while processing your request: " ++ e
      ++ ". Please try again with a simpler request.", 1)
  | ModelReply.reply _ text =>
    if text_truthy text then (post_process (py_strip (text.getD "")), 1)
    else (no_response_apology, 1)

/-- Embedding of `GeminiService._generate_response_async`
(src/services/ai_service.py:233-441), returning the terminal response text,
the number of sampling calls issued, and the function calls executed.
With a token and a working MCP connection: one sampling call; if its reply
carries function calls they are all executed in order and one follow-up
sampling call is made (its failure is caught and replaced by a synthesized
summary text); otherwise the reply text (or the apology) is the response.
If the connection or the first sampling call fails, control falls through to
the fallback path. -/
def generate_response_async (env : TurnEnv) : String × Nat × List FunctionCall :=
  if env.has_token then
    if !env.connect_ok then
      let (t, n) := fallback_generate env
      (t, n, [])
    else
      match env.first_reply with
      | ModelReply.failure _ =>
        let (t, n) := fallback_generate env
        (t, 1 + n, [])
      | ModelReply.reply function_calls text =>
        if !function_calls.isEmpty then
          let function_results := function_calls.map
            (fun c => c.name ++ ": " ++ env.exec_result c)
          let all_results := String.intercalate "\n" function_results
          let response_text :=
            match env.follow_up_reply with
            | ModelReply.failure _ => "All functions executed successfully: " ++ all_results
            | ModelReply.reply _ fu_text =>
              if text_truthy fu_text then py_strip (fu_text.getD "")
              else "All functions executed successfully: " ++ all_results
          (post_process response_text, 2, function_calls)
        else
          let response_text :=
            if text_truthy text then py_strip (text.getD "")
            else no_response_apology
          (post_process response_text, 1, [])
  else
    let (t, n) := fallback_generate env
    (t, n, [])

/-! ### Chat-history bookkeeping — `webhook` and `api_chat` (src/app.py) -/

/-- One stored chat message. -/
structure ChatMsg where
  role : String
  content : String
deriving DecidableEq

/-- The history update performed by the `webhook` handler
(src/app.py:56-75): append the user message, append the assistant response,
then keep only the last 20 entries. -/
def webhook_update_history (history : List ChatMsg) (incoming_msg ai_response : String) :
    List ChatMsg :=
  let h1 := history ++ [{ role := "user", content := incoming_msg }]
  let h2 := h1 ++ [{ role := "assistant", content := ai_response }]
  if h2.length > 20 then h2.drop (h2.length - 20) else h2

/-- The identical history update performed by the `api_chat` handler
(src/app.py:108-127). -/
def api_chat_update_history (history : List ChatMsg) (message ai_response : String) :
    List ChatMsg :=
  let h1 := history ++ [{ role := "user", content := message }]
  let h2 := h1 ++ [{ role := "assistant", content := ai_response }]
  if h2.length > 20 then h2.drop (h2.length - 20) else h2

/-! ## Claims -/

/-! ### C3 — Schema Sanitizer -/

/-- Helper for C3: kept dict entries of the sanitizer never carry a key that
the sanitizer filters. -/
theorem banned_key_cases (key k : String)
    (hkey : key = "additionalProperties" ∨ key = "$schema")
    (hb : (k == "additionalProperties" || k == "$schema") = false) :
    (k == key) = false := by
  have h' : ¬ k = "additionalProperties" ∧ ¬ k = "$schema" := by
    simpa [not_or] using hb
  rcases hkey with h1 | h1 <;> subst h1 <;> simp [h'.1, h'.2]

mutual

/-- Helper for C3: the cleaned schema contains no filtered key at any depth. -/
theorem has_key_deep_clean_schema (key : String)
    (hkey : key = "additionalProperties" ∨ key = "$schema") :
    ∀ s, has_key_deep key (clean_schema s) = false
  | Json.obj fields => by
      simp [clean_schema, has_key_deep, has_key_deep_clean_fields key hkey fields]
  | Json.arr items => by
      simp [clean_schema, has_key_deep, has_key_deep_clean_items key hkey items]
  | Json.null => rfl
  | Json.bool _ => rfl
  | Json.num _ => rfl
  | Json.str _ => rfl

/-- Helper for C3, dict-entry case. -/
theorem has_key_deep_clean_fields (key : String)
    (hkey : key = "additionalProperties" ∨ key = "$schema") :
    ∀ l, has_key_deep_fields key (clean_schema_fields l) = false
  | [] => rfl
  | (k, v) :: rest => by
      by_cases h : (k == "additionalProperties" || k == "$schema") = true
      · simp [clean_schema_fields, h, has_key_deep_clean_fields key hkey rest]
      · have hb : (k == "additionalProperties" || k == "$schema") = false := by
          simpa using h
        simp [clean_schema_fields, hb, has_key_deep_fields,
          banned_key_cases key k hkey hb,
          has_key_deep_clean_schema key hkey v, has_key_deep_clean_fields key hkey rest]

/-- Helper for C3, list-item case. -/
theorem has_key_deep_clean_items (key : String)
    (hkey : key = "additionalProperties" ∨ key = "$schema") :
    ∀ l, has_key_deep_items key (clean_schema_items l) = false
  | [] => rfl
  | j :: rest => by
      simp [clean_schema_items, has_key_deep_items,
        has_key_deep_clean_schema key hkey j, has_key_deep_clean_items key hkey rest]

end

mutual

/-- Helper for C3: a schema containing neither filtered key is returned
entirely unchanged. -/
theorem clean_schema_of_no_banned :
    ∀ s, has_key_deep "additionalProperties" s = false →
      has_key_deep "$schema" s = false → clean_schema s = s
  | Json.obj fields => by
      intro h1 h2
      simp only [has_key_deep] at h1 h2
      simp [clean_schema, clean_fields_of_no_banned fields h1 h2]
  | Json.arr items => by
      intro h1 h2
      simp only [has_key_deep] at h1 h2
      simp [clean_schema, clean_items_of_no_banned items h1 h2]
  | Json.null => fun _ _ => rfl
  | Json.bool _ => fun _ _ => rfl
  | Json.num _ => fun _ _ => rfl
  | Json.str _ => fun _ _ => rfl

/-- Helper for C3, dict-entry case of `clean_schema_of_no_banned`. -/
theorem clean_fields_of_no_banned :
    ∀ l, has_key_deep_fields "additionalProperties" l = false →
      has_key_deep_fields "$schema" l = false → clean_schema_fields l = l
  | [] => fun _ _ => rfl
  | (k, v) :: rest => by
      intro h1 h2
      simp only [has_key_deep_fields, Bool.or_eq_false_iff] at h1 h2
      obtain ⟨⟨hk1, hv1⟩, hr1⟩ := h1
      obtain ⟨⟨hk2, hv2⟩, hr2⟩ := h2
      simp [clean_schema_fields, hk1, hk2,
        clean_schema_of_no_banned v hv1 hv2, clean_fields_of_no_banned rest hr1 hr2]

/-- Helper for C3, list-item case of `clean_schema_of_no_banned`. -/
theorem clean_items_of_no_banned :
    ∀ l, has_key_deep_items "additionalProperties" l = false →
      has_key_deep_items "$schema" l = false → clean_schema_items l = l
  | [] => fun _ _ => rfl
  | j :: rest => by
      intro h1 h2
      simp only [has_key_deep_items, Bool.or_eq_false_iff] at h1 h2
      simp [clean_schema_items, clean_schema_of_no_banned j h1.1 h2.1,
        clean_items_of_no_banned rest h1.2 h2.2]

end

/-- C3 counterexample: the claim says the sanitizer's output contains no
const marker at any depth, but `_clean_schema` only filters
`additionalProperties` and `$schema`; a schema consisting of a `const` entry
passes through intact, `const` key included. -/
theorem clean_schema_keeps_const_cex :
    clean_schema (Json.obj [("const", Json.num 5)]) = Json.obj [("const", Json.num 5)]
    ∧ has_key_deep "const" (clean_schema (Json.obj [("const", Json.num 5)])) = true :=
  ⟨rfl, rfl⟩

/-- C3 (amended): for every input schema, the Schema Sanitizer's output
contains no `additionalProperties` and no `$schema` key at any nesting depth
(these are the only keys the completion-API format rejects that the code
removes; `const` markers are preserved), and a schema containing none of
these two keys anywhere is preserved entirely unchanged. -/
theorem clean_schema_spec (s : Json) :
    has_key_deep "additionalProperties" (clean_schema s) = false
    ∧ has_key_deep "$schema" (clean_schema s) = false
    ∧ (has_key_deep "additionalProperties" s = false →
       has_key_deep "$schema" s = false →
       clean_schema s = s) :=
  ⟨has_key_deep_clean_schema "additionalProperties" (Or.inl rfl) s,
   has_key_deep_clean_schema "$schema" (Or.inr rfl) s,
   clean_schema_of_no_banned s⟩

/-- C3 witness: a concrete nested schema with an `additionalProperties`
marker loses exactly that marker, and a marker-free schema is unchanged. -/
theorem clean_schema_spec_witness :
    has_key_deep "additionalProperties"
      (clean_schema (Json.obj [("type", Json.str "object"),
        ("additionalProperties", Json.bool false),
        ("properties", Json.obj [("x", Json.obj [("$schema", Json.str "s")])])])) = false
    ∧ clean_schema (Json.obj [("type", Json.str "object")])
        = Json.obj [("type", Json.str "object")] :=
  ⟨(clean_schema_spec (Json.obj [("type", Json.str "object"),
      ("additionalProperties", Json.bool false),
      ("properties", Json.obj [("x", Json.obj [("$schema", Json.str "s")])])])).1,
   (clean_schema_spec (Json.obj [("type", Json.str "object")])).2.2 rfl rfl⟩

/-! ### C1 — Argument Filter -/

/-- Helper for C1: with a required list and a properties dict, the filtering
loop is ordinary list filtering by the membership/value predicate. -/
theorem filter_unset_loop_eq_filter (reqList : List Json)
    (propFields : List (String × Json)) :
    ∀ arguments, filter_unset_loop (Json.arr reqList) (Json.obj propFields) arguments
      = Except.ok (arguments.filter (fun kv =>
          reqList.any (fun j => j.eqStr kv.1)
          || (propFields.any (fun p => p.1 == kv.1)
              && !kv.2.isNull && !kv.2.isEmptyString)))
  | [] => rfl
  | (key, value) :: rest => by
      by_cases hreq : (reqList.any (fun j => j.eqStr key)) = true
      · simp [filter_unset_loop, Json.pyContains, hreq, List.filter_cons, Except.map,
          filter_unset_loop_eq_filter reqList propFields rest]
      · have hreq' : (reqList.any (fun j => j.eqStr key)) = false := by
          simpa using hreq
        by_cases hopt : (propFields.any (fun p => p.1 == key)
            && !value.isNull && !value.isEmptyString) = true
        · simp [filter_unset_loop, Json.pyContains, hreq', hopt, List.filter_cons, Except.map,
            filter_unset_loop_eq_filter reqList propFields rest]
        · have hopt' : (propFields.any (fun p => p.1 == key)
              && !value.isNull && !value.isEmptyString) = false := by
            simpa using hopt
          simp [filter_unset_loop, Json.pyContains, hreq', hopt', List.filter_cons,
            filter_unset_loop_eq_filter reqList propFields rest]

/-- C1 (amended): the Argument Filter returns the arguments unchanged
whenever the schema is absent, empty, or not a mapping (the code's guard
`not schema or not isinstance(schema, dict)` also passes an *empty* dict
through unchanged, which the original claim did not allow); for a non-empty
dict schema whose required entry is a list and whose properties entry is a
dict, it keeps exactly the argument keys listed in required (any value,
`None` and the empty string included) plus the argument keys declared in
properties whose value is neither `None` nor the empty string. -/
theorem filter_unset_parameters_spec :
    (∀ (arguments : List (String × Json)) (schema : Json),
       is_active_schema schema = false →
       filter_unset_parameters arguments schema = Except.ok arguments)
    ∧ (∀ (arguments fields : List (String × Json))
         (reqList : List Json) (propFields : List (String × Json)),
       Json.pyGet fields "required" (Json.arr []) = Json.arr reqList →
       Json.pyGet fields "properties" (Json.obj []) = Json.obj propFields →
       filter_unset_parameters arguments (Json.obj fields)
         = if is_active_schema (Json.obj fields) then
             Except.ok (arguments.filter (fun kv =>
               reqList.any (fun j => j.eqStr kv.1)
               || (propFields.any (fun p => p.1 == kv.1)
                   && !kv.2.isNull && !kv.2.isEmptyString)))
           else Except.ok arguments) := by
  constructor
  · intro arguments schema hguard
    simp [filter_unset_parameters, hguard]
  · intro arguments fields reqList propFields hreq hprop
    by_cases hact : is_active_schema (Json.obj fields) = true
    · simp [filter_unset_parameters, hact, hreq, hprop,
        filter_unset_loop_eq_filter reqList propFields arguments]
    · have hact' : is_active_schema (Json.obj fields) = false := by simpa using hact
      simp [filter_unset_parameters, hact']

/-- C1 witness: the claim's own scenario.  Arguments
`path = ""`, `ref = None`, `owner = "x"` with required `["owner", "ref"]`
and all three keys declared in properties filter to
`ref = None, owner = "x"`: `path` is dropped (optional, empty), `ref` is kept
because it is required, `owner` is kept. -/
theorem filter_unset_parameters_spec_witness :
    filter_unset_parameters
      [("path", Json.str ""), ("ref", Json.null), ("owner", Json.str "x")]
      (Json.obj [("required", Json.arr [Json.str "owner", Json.str "ref"]),
        ("properties", Json.obj [("path", Json.obj []), ("ref", Json.obj []),
          ("owner", Json.obj [])])])
      = Except.ok [("ref", Json.null), ("owner", Json.str "x")] :=
  filter_unset_parameters_spec.2
    [("path", Json.str ""), ("ref", Json.null), ("owner", Json.str "x")]
    [("required", Json.arr [Json.str "owner", Json.str "ref"]),
      ("properties", Json.obj [("path", Json.obj []), ("ref", Json.obj []),
        ("owner", Json.obj [])])]
    [Json.str "owner", Json.str "ref"]
    [("path", Json.obj []), ("ref", Json.obj []), ("owner", Json.obj [])]
    rfl rfl

/-- C1 counterexample: on the empty dict schema — a present mapping with no
required list and no properties — the claim as stated demands that every
argument key be dropped, but the code's falsy-schema guard returns the
arguments unchanged. -/
theorem filter_unset_parameters_empty_schema_cex :
    filter_unset_parameters [("a", Json.str "x")] (Json.obj [])
      ≠ Except.ok (spec_filter_unset [("a", Json.str "x")] (Json.obj [])) := by
  intro h
  injection h with h'
  exact List.cons_ne_nil _ _ h'

/-! ### C4 — Post-Processor truncation -/

/-- Helper for C4: appending the three-character truncation marker adds
exactly three to the length. -/
theorem mk_append_dots_length (l : List Char) : (String.mk l ++ "...").length = l.length + 3 := by
  simp [String.length, String.append]

/-- Helper for C4: a found paragraph break starts at least two characters
before the end of the searched text. -/
theorem rfind_para_bound : ∀ (l : List Char) (i : Nat), rfind_para l = some i → i + 1 < l.length
  | [], _ => by simp [rfind_para]
  | c :: rest, i => by
      intro h
      simp only [rfind_para] at h
      cases hr : rfind_para rest with
      | some j =>
          rw [hr] at h
          injection h with h'
          have hb := rfind_para_bound rest j hr
          simp only [List.length_cons]
          omega
      | none =>
          rw [hr] at h
          cases rest with
          | nil => simp [is_para_start] at h
          | cons d more =>
              by_cases hp : is_para_start (c :: d :: more) = true
              · rw [if_pos hp] at h
                injection h with h'
                simp only [List.length_cons]
                omega
              · rw [if_neg hp] at h
                exact absurd h (by simp)

/-- C4 counterexample: with a budget smaller than the three-character
truncation marker, Python's negative slice `text[:max_length-3]` wraps
around; a four-character text with budget 2 is "truncated" to six
characters, violating the claim's length bound. -/
theorem truncate_message_small_budget_cex :
    2 < ("aaaa" : String).length ∧ ¬ (truncate_message "aaaa" 2).length ≤ 2 := by
  decide

/-- C4 (amended): for every text and every configured maximum length of at
least the marker's three characters, truncation returns the text unchanged
when its length is at most the maximum, and otherwise returns a string of
length at most the maximum: cut at the last paragraph break of the first
`max_length - 3` characters when that break lies in the trailing 20% of the
budget (index above `0.8 * max_length`), and at the hard limit
`max_length - 3` otherwise, with the `"..."` marker appended. -/
theorem truncate_message_spec (text : String) (max_length : Nat) (h3 : 3 ≤ max_length) :
    (text.length ≤ max_length → truncate_message text max_length = text)
    ∧ (max_length < text.length →
        (truncate_message text max_length).length ≤ max_length
        ∧ (∀ i, rfind_para (text.data.take (max_length - 3)) = some i →
            5 * i > 4 * max_length →
            truncate_message text max_length = String.mk (text.data.take i) ++ "...")
        ∧ (∀ i, rfind_para (text.data.take (max_length - 3)) = some i →
            ¬ 5 * i > 4 * max_length →
            truncate_message text max_length
              = String.mk (text.data.take (max_length - 3)) ++ "...")
        ∧ (rfind_para (text.data.take (max_length - 3)) = none →
            truncate_message text max_length
              = String.mk (text.data.take (max_length - 3)) ++ "...")) := by
  have hdata : text.data.length = text.length := rfl
  constructor
  · intro hle
    simp [truncate_message, hle]
  · intro hgt
    have hnle : ¬ text.length ≤ max_length := by omega
    have hslice : py_slice_to text.data ((max_length : Int) - 3)
        = text.data.take (max_length - 3) := by
      simp only [py_slice_to]
      rw [if_pos (by omega)]
      congr 1
      omega
    cases hr : rfind_para (text.data.take (max_length - 3)) with
    | none =>
        have hval : truncate_message text max_length
            = String.mk (text.data.take (max_length - 3)) ++ "..." := by
          simp only [truncate_message]
          rw [if_neg hnle, hslice, hr]
        refine ⟨?_, ?_, ?_, fun _ => hval⟩
        · rw [hval, mk_append_dots_length, List.length_take]
          omega
        · intro i hi _
          exact absurd hi (by simp)
        · intro i hi _
          exact absurd hi (by simp)
    | some i =>
        have hib := rfind_para_bound _ i hr
        rw [List.length_take] at hib
        by_cases h5 : 5 * i > 4 * max_length
        · have hval : truncate_message text max_length
              = String.mk (text.data.take i) ++ "..." := by
            simp only [truncate_message]
            rw [if_neg hnle, hslice, hr]
            show String.mk (if 5 * i > 4 * max_length
              then (text.data.take (max_length - 3)).take i
              else text.data.take (max_length - 3)) ++ "..." = _
            rw [if_pos h5, List.take_take, Nat.min_eq_left (by omega : i ≤ max_length - 3)]
          refine ⟨?_, fun j hj _ => ?_, fun j hj h5' => ?_, fun hn => ?_⟩
          · rw [hval, mk_append_dots_length, List.length_take]
            omega
          · injection hj with hj'
            subst hj'
            exact hval
          · injection hj with hj'
            exfalso
            omega
          · exact absurd hn (by simp)
        · have hval : truncate_message text max_length
              = String.mk (text.data.take (max_length - 3)) ++ "..." := by
            simp only [truncate_message]
            rw [if_neg hnle, hslice, hr]
            show String.mk (if 5 * i > 4 * max_length
              then (text.data.take (max_length - 3)).take i
              else text.data.take (max_length - 3)) ++ "..." = _
            rw [if_neg h5]
          refine ⟨?_, fun j hj h5' => ?_, fun j hj _ => ?_, fun hn => ?_⟩
          · rw [hval, mk_append_dots_length, List.length_take]
            omega
          · injection hj with hj'
            exfalso
            omega
          · exact hval
          · exact absurd hn (by simp)

/-- C4 witness: a short text passes through unchanged; a 12-character text
with budget 10 obeys the length bound; a 37-character text with a paragraph
break at index 25 and budget 30 is cut exactly at the break. -/
theorem truncate_message_spec_witness :
    truncate_message "short" 10 = "short"
    ∧ (truncate_message "aaaaaaaaaaaa" 10).length ≤ 10
    ∧ truncate_message "aaaaaaaaaaaaaaaaaaaaaaaaa\n\nbbbbbbbbbb" 30
        = String.mk (("aaaaaaaaaaaaaaaaaaaaaaaaa\n\nbbbbbbbbbb" : String).data.take 25) ++ "..." :=
  ⟨(truncate_message_spec "short" 10 (by decide)).1 (by decide),
   ((truncate_message_spec "aaaaaaaaaaaa" 10 (by decide)).2 (by decide)).1,
   (((truncate_message_spec "aaaaaaaaaaaaaaaaaaaaaaaaa\n\nbbbbbbbbbb" 30
       (by decide)).2 (by decide)).2.1) 25 rfl (by decide)⟩

/-! ### C7 — Post-Processor code-fence formatting -/

/-- C7: a fenced code block with a declared language comes out with TWO
labels, not one.  The first pass rewrites the language-tagged fence to
`*PYTHON CODE:*` followed by an untagged fence, and the second pass — meant
for fences that never had a language — matches that freshly produced untagged
fence and prefixes the generic `*CODE:*` label as well.  The code content is
preserved verbatim, but the claimed "exactly one label derived from the
declared language, generic label only when no language is declared" is
violated on every language-tagged block. -/
theorem format_code_double_label_bug :
    format_code_for_whatsapp "```python\nx = 1\n```"
      = "*PYTHON CODE:*\n*CODE:*\n```\nx = 1\n```" := rfl

/-! ### C8 — formatting is idempotent on block-free text -/

/-- Helper for C8: when neither fence pattern matches anywhere — the code's
notion of "contains no fenced code blocks" — both rewrite passes fold over an
empty match list and the text is returned unchanged. -/
theorem format_code_for_whatsapp_of_no_blocks (x : String)
    (h1 : find_lang_blocks_fuel x.data.length x.data = [])
    (h2 : find_generic_blocks_fuel x.data.length x.data = []) :
    format_code_for_whatsapp x = x := by
  simp only [format_code_for_whatsapp, h1, List.foldl_nil, h2]

/-- C8: formatting is idempotent on every text with no fenced code blocks
(no match of the language-tagged pattern and none of the untagged pattern):
such text passes through unchanged, so a second application changes nothing. -/
theorem format_code_idempotent_no_blocks (x : String)
    (h1 : find_lang_blocks_fuel x.data.length x.data = [])
    (h2 : find_generic_blocks_fuel x.data.length x.data = []) :
    format_code_for_whatsapp (format_code_for_whatsapp x) = format_code_for_whatsapp x := by
  have h := format_code_for_whatsapp_of_no_blocks x h1 h2
  rw [h]
  exact h

/-- C8 witness: a plain greeting is a fixed point of double formatting. -/
theorem format_code_idempotent_no_blocks_witness :
    format_code_for_whatsapp (format_code_for_whatsapp "hello world")
      = format_code_for_whatsapp "hello world" :=
  format_code_idempotent_no_blocks "hello world" rfl rfl

/-! ### C2 — terminal response of a no-function-call reply -/

/-- C2 counterexample: the code contains no satisfaction-marker handling at
all.  A sampled reply of `"Done! [SATISFIED]"` with no function calls is
returned with the marker still embedded — not the claimed `"Done!"`. -/
theorem satisfied_marker_kept_cex :
    (generate_response_async
      { has_token := true, connect_ok := true,
        first_reply := ModelReply.reply [] (some "Done! [SATISFIED]"),
        follow_up_reply := ModelReply.reply [] none,
        fallback_reply := ModelReply.reply [] none,
        exec_result := fun _ => "" }).1 = "Done! [SATISFIED]"
    ∧ "Done! [SATISFIED]" ≠ "Done!" :=
  ⟨rfl, by decide⟩

/-- C2 (amended): a sampled reply with no function calls and a non-empty text
is terminal after exactly one sampling call, and the terminal response is the
reply text itself — whitespace-stripped, code-formatted and truncated — with
no marker stripped (the code never looks for satisfaction markers). -/
theorem no_function_call_reply_spec (env : TurnEnv) (t : String)
    (htok : env.has_token = true) (hconn : env.connect_ok = true)
    (hreply : env.first_reply = ModelReply.reply [] (some t)) (ht : t ≠ "") :
    generate_response_async env = (post_process (py_strip t), 1, []) := by
  simp [generate_response_async, htok, hconn, hreply, text_truthy, ht]

/-- C2 witness: the claim's scenario reply terminates after one sampling
call with the marker intact. -/
theorem no_function_call_reply_spec_witness :
    generate_response_async
      { has_token := true, connect_ok := true,
        first_reply := ModelReply.reply [] (some "Done! [SATISFIED]"),
        follow_up_reply := ModelReply.reply [] none,
        fallback_reply := ModelReply.reply [] none,
        exec_result := fun _ => "" }
      = ("Done! [SATISFIED]", 1, []) :=
  no_function_call_reply_spec
    { has_token := true, connect_ok := true,
      first_reply := ModelReply.reply [] (some "Done! [SATISFIED]"),
      follow_up_reply := ModelReply.reply [] none,
      fallback_reply := ModelReply.reply [] none,
      exec_result := fun _ => "" }
    "Done! [SATISFIED]" rfl rfl rfl (by decide)

/-! ### C5 — bounded number of sampling calls per turn -/

/-- Helper for C5: the fallback path issues exactly one sampling call. -/
theorem fallback_generate_calls (env : TurnEnv) : (fallback_generate env).2 = 1 := by
  cases hf : env.fallback_reply with
  | failure m => simp [fallback_generate, hf]
  | reply c t =>
      by_cases h : text_truthy t = true
      · simp [fallback_generate, hf, h]
      · simp [fallback_generate, hf, h]

/-- C5: for every single user turn, whatever the model replies, the
controller issues at most `max_iterations = 5` sampling calls before
producing a terminal response.  (There is no clarification loop in the code
at all: every control path issues at most two `generate_content` calls — one
initial sample plus either one follow-up after function calls or one fallback
retry after an MCP failure.) -/
theorem sampling_calls_bounded (env : TurnEnv) :
    (generate_response_async env).2.1 ≤ 5 := by
  have hfb := fallback_generate_calls env
  by_cases htok : env.has_token = true
  · by_cases hconn : env.connect_ok = true
    · cases hfr : env.first_reply with
      | failure m =>
          simp [generate_response_async, htok, hconn, hfr, hfb]
      | reply calls t =>
          by_cases hc : calls.isEmpty = true
          · simp [generate_response_async, htok, hconn, hfr, hc]
          · simp [generate_response_async, htok, hconn, hfr, hc]
    · have hconn' : env.connect_ok = false := by simpa using hconn
      simp [generate_response_async, htok, hconn', hfb]
  · have htok' : env.has_token = false := by simpa using htok
    simp [generate_response_async, htok', hfb]

/-! ### C6 — function calls take precedence over reply text -/

/-- C6: when a sampled reply carries both function calls and a text (with or
without a marker — markers live inside the text), every function call is
executed, and the terminal response is computed from the follow-up sample
alone: the first reply's text has no effect whatsoever on the outcome. -/
theorem function_calls_take_precedence (env : TurnEnv) (calls : List FunctionCall)
    (t : String) (htok : env.has_token = true) (hconn : env.connect_ok = true)
    (hcalls : calls.isEmpty = false)
    (hreply : env.first_reply = ModelReply.reply calls (some t)) :
    (generate_response_async env).2.2 = calls
    ∧ (∀ t', generate_response_async
        { env with first_reply := ModelReply.reply calls (some t') }
        = generate_response_async env) := by
  constructor
  · simp [generate_response_async, htok, hconn, hreply, hcalls]
  · intro t'
    simp [generate_response_async, htok, hconn, hreply, hcalls]

/-- C6 witness: a reply carrying one `createRepo` call plus marker text
executes the call, and replacing the marker text by any other text leaves the
turn's outcome unchanged. -/
theorem function_calls_take_precedence_witness :
    (generate_response_async
      { has_token := true, connect_ok := true,
        first_reply := ModelReply.reply
          [⟨"createRepo", [("name", Json.str "demo")]⟩] (some "Done! [SATISFIED]"),
        follow_up_reply := ModelReply.reply [] (some "Created."),
        fallback_reply := ModelReply.reply [] none,
        exec_result := fun _ => "ok" }).2.2
      = [⟨"createRepo", [("name", Json.str "demo")]⟩]
    ∧ generate_response_async
        { has_token := true, connect_ok := true,
          first_reply := ModelReply.reply
            [⟨"createRepo", [("name", Json.str "demo")]⟩] (some "ignored"),
          follow_up_reply := ModelReply.reply [] (some "Created."),
          fallback_reply := ModelReply.reply [] none,
          exec_result := fun _ => "ok" }
        = generate_response_async
          { has_token := true, connect_ok := true,
            first_reply := ModelReply.reply
              [⟨"createRepo", [("name", Json.str "demo")]⟩] (some "Done! [SATISFIED]"),
            follow_up_reply := ModelReply.reply [] (some "Created."),
            fallback_reply := ModelReply.reply [] none,
            exec_result := fun _ => "ok" } :=
  ⟨(function_calls_take_precedence
      { has_token := true, connect_ok := true,
        first_reply := ModelReply.reply
          [⟨"createRepo", [("name", Json.str "demo")]⟩] (some "Done! [SATISFIED]"),
        follow_up_reply := ModelReply.reply [] (some "Created."),
        fallback_reply := ModelReply.reply [] none,
        exec_result := fun _ => "ok" }
      [⟨"createRepo", [("name", Json.str "demo")]⟩]
      "Done! [SATISFIED]" rfl rfl rfl rfl).1,
   (function_calls_take_precedence
      { has_token := true, connect_ok := true,
        first_reply := ModelReply.reply
          [⟨"createRepo", [("name", Json.str "demo")]⟩] (some "Done! [SATISFIED]"),
        follow_up_reply := ModelReply.reply [] (some "Created."),
        fallback_reply := ModelReply.reply [] none,
        exec_result := fun _ => "ok" }
      [⟨"createRepo", [("name", Json.str "demo")]⟩]
      "Done! [SATISFIED]" rfl rfl rfl rfl).2 "ignored"⟩

/-! ### C9 — tool invocation always yields a textual result -/

/-- C9: a tool invocation always produces a textual result — the embedding
returns a plain `String` on every path, never propagating an exception.
When the session call raises, the result text describes the error; when it
returns no content, a fixed notice is produced; when it returns content, the
first text is re-serialized if it parses as JSON and returned raw
otherwise. -/
theorem execute_function_call_spec (session : McpSession) (function_call : FunctionCall)
    (tool_schemas : List ToolInfo) (filtered_args : List (String × Json))
    (hf : filtered_call_args function_call tool_schemas = Except.ok filtered_args) :
    (∀ e, session function_call.name filtered_args = Except.error e →
       execute_function_call session function_call tool_schemas
         = "Error executing function: " ++ e)
    ∧ (session function_call.name filtered_args = Except.ok [] →
       execute_function_call session function_call tool_schemas
         = "Function executed successfully but returned no content.")
    ∧ (∀ t ts, session function_call.name filtered_args = Except.ok (t :: ts) →
       execute_function_call session function_call tool_schemas
         = match json_loads t with
           | some j => json_dumps j
           | none => t) := by
  refine ⟨?_, ?_, ?_⟩
  · intro e he
    simp [execute_function_call, hf, he]
  · intro h
    simp [execute_function_call, hf, h]
  · intro t ts h
    simp [execute_function_call, hf, h]

/-- C9 witness: a provider reply that parses as JSON is re-serialized with
two-space indentation; a raised session exception becomes error text. -/
theorem execute_function_call_spec_witness :
    execute_function_call (fun _ _ => Except.ok ["[1, 2]"]) ⟨"getRepo", []⟩ []
      = "[\n  1,\n  2\n]"
    ∧ execute_function_call (fun _ _ => Except.error "boom") ⟨"getRepo", []⟩ []
      = "Error executing function: boom" :=
  ⟨(execute_function_call_spec (fun _ _ => Except.ok ["[1, 2]"]) ⟨"getRepo", []⟩ []
      [] rfl).2.2 "[1, 2]" [] rfl,
   (execute_function_call_spec (fun _ _ => Except.error "boom") ⟨"getRepo", []⟩ []
      [] rfl).1 "boom" rfl⟩

/-! ### C10 — chat-history invariant of both entry points -/

/-- Helper for C10: appending a user and an assistant message and then
keeping the last 20 entries leaves at most 20 entries that still end with
exactly those two messages. -/
theorem append_two_trim_spec (h : List ChatMsg) (u a : ChatMsg) :
    (if ((h ++ [u]) ++ [a]).length > 20
     then ((h ++ [u]) ++ [a]).drop (((h ++ [u]) ++ [a]).length - 20)
     else (h ++ [u]) ++ [a]).length ≤ 20
    ∧ ∃ p, (if ((h ++ [u]) ++ [a]).length > 20
        then ((h ++ [u]) ++ [a]).drop (((h ++ [u]) ++ [a]).length - 20)
        else (h ++ [u]) ++ [a]) = p ++ [u, a] := by
  have he : (h ++ [u]) ++ [a] = h ++ [u, a] := by simp
  rw [he]
  have hlen : (h ++ [u, a]).length = h.length + 2 := by simp
  by_cases hgt : (h ++ [u, a]).length > 20
  · rw [if_pos hgt]
    refine ⟨?_, h.drop ((h ++ [u, a]).length - 20), ?_⟩
    · rw [List.length_drop]
      omega
    · rw [List.drop_append_of_le_length (by omega)]
  · rw [if_neg hgt]
    exact ⟨by omega, h, rfl⟩

/-- C10: after every completed turn through the webhook or the API chat
endpoint, the stored chat history holds at most 20 messages and ends with the
user's message followed by the assistant's response for that turn — the same
invariant for both entry points. -/
theorem chat_history_invariant (history : List ChatMsg) (user_msg ai_response : String) :
    ((webhook_update_history history user_msg ai_response).length ≤ 20
      ∧ ∃ p, webhook_update_history history user_msg ai_response
          = p ++ [{ role := "user", content := user_msg },
                  { role := "assistant", content := ai_response }])
    ∧ ((api_chat_update_history history user_msg ai_response).length ≤ 20
      ∧ ∃ p, api_chat_update_history history user_msg ai_response
          = p ++ [{ role := "user", content := user_msg },
                  { role := "assistant", content := ai_response }]) := by
  constructor
  · have h := append_two_trim_spec history
      { role := "user", content := user_msg }
      { role := "assistant", content := ai_response }
    simpa [webhook_update_history] using h
  · have h := append_two_trim_spec history
      { role := "user", content := user_msg }
      { role := "assistant", content := ai_response }
    simpa [api_chat_update_history] using h
